import Mathlib

/-!
Verification of the chunked download manager
(`src/src-tauri/src/chunked_download.rs` of GastownUI).

The Rust code is shallowly embedded: `u64`/`usize` values (64-bit target)
become `Nat` with explicit reduction modulo `2 ^ 64` where Rust release-mode
wrapping matters, strings become `String`, fallible operations become
`Except String` or `Option`, and the effects relevant to each property
(registry contents, on-disk files, event emission, task interleavings)
become explicit state records or step relations.  Line numbers refer to
`chunked_download.rs`.
-/

deriving instance DecidableEq for Except

/-- Chunk size: 64MB (`CHUNK_SIZE`, line 15). -/
def CHUNK_SIZE : Nat := 64 * 1024 * 1024

/-- Maximum parallel downloads (`MAX_PARALLEL_DOWNLOADS`, line 17); capacity of
the process-wide semaphore (line 100). -/
def MAX_PARALLEL_DOWNLOADS : Nat := 8

/-- Modulus of `u64` arithmetic, written as a numeral (= `2 ^ 64`). -/
def U64 : Nat := 18446744073709551616

/-- Wrapping `u64` decrement applied to an already-reduced value `x < U64`:
Rust's `x - 1` in release mode. -/
def wrap_pred (x : Nat) : Nat := (x + U64 - 1) % U64

/-- Download lifecycle state (`DownloadState`, lines 39-46). -/
inductive DownloadState
  | Pending
  | Downloading
  | Paused
  | Verifying
  | Complete
  | Failed
  deriving DecidableEq, Repr

/-- Chunk status for resume support (`ChunkStatus`, lines 50-57).  The Rust
field `end` is a Lean keyword and is modelled as `stop`. -/
structure ChunkStatus where
  index : Nat
  start : Nat
  stop : Nat
  downloaded : Nat
  complete : Bool
  sha256 : Option String
  deriving DecidableEq, Repr

/-- Progress file for resume support (`DownloadProgress`, lines 61-69). -/
structure DownloadProgress where
  id : String
  url : String
  total_size : Nat
  expected_sha256 : Option String
  chunks : List ChunkStatus
  created_at : String
  updated_at : String
  deriving DecidableEq, Repr

/-- Download status for a single file (`DownloadStatus`, lines 22-34).  The
`f32` percentage is modelled as `Rat`; only the exact values `0` and `100`
matter to any claim. -/
structure DownloadStatus where
  id : String
  url : String
  total_size : Nat
  downloaded : Nat
  progress : Rat
  status : DownloadState
  chunks_completed : Nat
  chunks_total : Nat
  error : Option String
  sha256 : Option String
  output_path : String
  deriving DecidableEq, Repr

/-- Chunk planning inside `start_chunked_download` (lines 180-195):
`num_chunks = (total_size + CHUNK_SIZE - 1) / CHUNK_SIZE` and chunk `i` covers
`[i * CHUNK_SIZE, min (i * CHUNK_SIZE + CHUNK_SIZE - 1) (total_size - 1)]`,
all in wrapping `u64` arithmetic. -/
def plan_chunks (total_size : Nat) : List ChunkStatus :=
  (List.range (wrap_pred ((total_size + CHUNK_SIZE) % U64) / CHUNK_SIZE)).map (fun i =>
    { index := i
      start := (i * CHUNK_SIZE) % U64
      stop := min (wrap_pred (((i * CHUNK_SIZE) % U64 + CHUNK_SIZE) % U64)) (wrap_pred total_size)
      downloaded := 0
      complete := false
      sha256 := none })

/-- Length in bytes of a planned chunk, `end - start + 1` in the spec's terms. -/
def chunk_len (c : ChunkStatus) : Nat := c.stop - c.start + 1

/-- Closed form of the planner on inputs where no `u64` arithmetic wraps. -/
theorem plan_chunks_eq (n : Nat) (h0 : 0 < n) (h1 : n ≤ U64 - CHUNK_SIZE) :
    plan_chunks n = (List.range ((n + CHUNK_SIZE - 1) / CHUNK_SIZE)).map
      (fun i =>
        { index := i
          start := i * CHUNK_SIZE
          stop := min (i * CHUNK_SIZE + CHUNK_SIZE - 1) (n - 1)
          downloaded := 0
          complete := false
          sha256 := none }) := by
  have hnum : wrap_pred ((n + CHUNK_SIZE) % U64) / CHUNK_SIZE
      = (n + CHUNK_SIZE - 1) / CHUNK_SIZE := by
    simp only [wrap_pred, U64, CHUNK_SIZE] at h1 ⊢
    omega
  rw [plan_chunks, hnum]
  apply List.map_congr_left
  intro i hi
  rw [List.mem_range] at hi
  have hstart : i * CHUNK_SIZE % U64 = i * CHUNK_SIZE := by
    apply Nat.mod_eq_of_lt
    simp only [U64, CHUNK_SIZE] at h1 hi ⊢
    omega
  have hstop : min (wrap_pred ((i * CHUNK_SIZE + CHUNK_SIZE) % U64)) (wrap_pred n)
      = min (i * CHUNK_SIZE + CHUNK_SIZE - 1) (n - 1) := by
    simp only [wrap_pred, U64, CHUNK_SIZE] at h0 h1 hi ⊢
    omega
  simp only [hstart, hstop]

/-- Telescoping sum of planned chunk lengths: summing the first `m` chunk
lengths gives `min (m * CHUNK_SIZE) n`. -/
theorem plan_sum_aux (n : Nat) : ∀ m : Nat, (∀ i, i < m → i * CHUNK_SIZE < n) →
    ((List.range m).map
      (fun i => min (i * CHUNK_SIZE + CHUNK_SIZE - 1) (n - 1) - i * CHUNK_SIZE + 1)).sum
      = min (m * CHUNK_SIZE) n := by
  intro m
  induction m with
  | zero => intro _; simp
  | succ k ih =>
      intro h
      rw [List.range_succ, List.map_append, List.sum_append,
        ih (fun i hi => h i (Nat.lt_succ_of_lt hi))]
      have hk := h k (Nat.lt_succ_self k)
      simp only [List.map_cons, List.map_nil, List.sum_cons, List.sum_nil, CHUNK_SIZE] at *
      omega

/-- C2 (amended): for every `total_size` with `0 < total_size` and
`total_size ≤ 2^64 - CHUNK_SIZE` (so that the `u64` ceiling computation
`total_size + CHUNK_SIZE - 1` does not wrap), the planned chunk list has
exactly `ceil(total_size / CHUNK_SIZE)` ranges, sorted by index, contiguous
from offset 0, non-overlapping, the last inclusive end is `total_size - 1`,
every range except the last has length exactly `CHUNK_SIZE`, every range has
length at most `CHUNK_SIZE`, and the lengths sum to `total_size`. -/
theorem plan_chunks_spec (n : Nat) (h0 : 0 < n) (h1 : n ≤ U64 - CHUNK_SIZE) :
    (plan_chunks n).length = (n + CHUNK_SIZE - 1) / CHUNK_SIZE ∧
    n ≤ (plan_chunks n).length * CHUNK_SIZE ∧
    ((plan_chunks n).length - 1) * CHUNK_SIZE < n ∧
    (∀ i, ∀ h : i < (plan_chunks n).length,
      ((plan_chunks n).get ⟨i, h⟩).index = i ∧
      ((plan_chunks n).get ⟨i, h⟩).start = i * CHUNK_SIZE ∧
      ((plan_chunks n).get ⟨i, h⟩).stop = min (i * CHUNK_SIZE + CHUNK_SIZE - 1) (n - 1) ∧
      chunk_len ((plan_chunks n).get ⟨i, h⟩) ≤ CHUNK_SIZE ∧
      (i + 1 < (plan_chunks n).length → chunk_len ((plan_chunks n).get ⟨i, h⟩) = CHUNK_SIZE)) ∧
    (∀ i, ∀ h : i + 1 < (plan_chunks n).length,
      ((plan_chunks n).get ⟨i + 1, h⟩).start
        = ((plan_chunks n).get ⟨i, Nat.lt_of_succ_lt h⟩).stop + 1) ∧
    (∀ h : 0 < (plan_chunks n).length,
      ((plan_chunks n).get ⟨0, h⟩).start = 0 ∧
      ((plan_chunks n).get ⟨(plan_chunks n).length - 1, Nat.sub_lt h Nat.one_pos⟩).stop
        = n - 1) ∧
    ((plan_chunks n).map chunk_len).sum = n := by
  rw [plan_chunks_eq n h0 h1]
  refine ⟨by simp, ?_, ?_, ?_, ?_, ?_, ?_⟩
  · simp only [List.length_map, List.length_range, CHUNK_SIZE] at *
    omega
  · simp only [List.length_map, List.length_range, CHUNK_SIZE] at *
    omega
  · intro i h
    simp only [List.length_map, List.length_range] at h
    simp only [List.get_eq_getElem, List.getElem_map, List.getElem_range, chunk_len,
      List.length_map, List.length_range]
    refine ⟨trivial, trivial, trivial, ?_, ?_⟩
    · simp only [CHUNK_SIZE] at h ⊢
      omega
    · intro hlt
      simp only [CHUNK_SIZE] at h hlt ⊢
      omega
  · intro i h
    simp only [List.length_map, List.length_range] at h
    simp only [List.get_eq_getElem, List.getElem_map, List.getElem_range]
    simp only [CHUNK_SIZE] at *
    omega
  · intro h
    simp only [List.length_map, List.length_range] at h
    simp only [List.get_eq_getElem, List.getElem_map, List.getElem_range,
      List.length_map, List.length_range]
    constructor
    · simp
    · simp only [CHUNK_SIZE] at *
      omega
  · rw [List.map_map]
    have hcomp : chunk_len ∘ (fun i : Nat =>
        ({ index := i, start := i * CHUNK_SIZE,
           stop := min (i * CHUNK_SIZE + CHUNK_SIZE - 1) (n - 1),
           downloaded := 0, complete := false, sha256 := none } : ChunkStatus))
        = fun i => min (i * CHUNK_SIZE + CHUNK_SIZE - 1) (n - 1) - i * CHUNK_SIZE + 1 := by
      funext i
      simp [chunk_len]
    rw [hcomp, plan_sum_aux n ((n + CHUNK_SIZE - 1) / CHUNK_SIZE)
      (fun i hi => by simp only [CHUNK_SIZE] at *; omega)]
    simp only [CHUNK_SIZE, U64] at *
    omega

/-- C2, counterexample to the claim as stated: at `total_size = 2^64 - 1`
(a representable `u64` with no declared upper bound in the claim), the
release-mode `u64` computation `total_size + CHUNK_SIZE - 1` wraps, the
planner produces the empty list, yet `ceil(total_size / CHUNK_SIZE) = 2^38`. -/
theorem plan_chunks_overflow_counterexample :
    plan_chunks (U64 - 1) = [] ∧
    (U64 - 1 + CHUNK_SIZE - 1) / CHUNK_SIZE = 274877906944 := by
  constructor
  · decide
  · decide

/-- C2, witness: the amended planner specification applied at the spec's
concrete scenario `total_size = 200 MiB`. -/
theorem plan_chunks_spec_witness :
    0 < 209715200 ∧ 209715200 ≤ U64 - CHUNK_SIZE ∧
    (plan_chunks 209715200).length = (209715200 + CHUNK_SIZE - 1) / CHUNK_SIZE :=
  ⟨by norm_num, by norm_num [U64, CHUNK_SIZE],
    (plan_chunks_spec 209715200 (by norm_num) (by norm_num [U64, CHUNK_SIZE])).1⟩

/-- Byte-level effect of the file setup at the top of `download_file`
(lines 420-427): `File::create` on the `.partial` path truncates whatever
partial content already exists, and `set_len(total_size)` refills the extent
with zero bytes.  The previous content `old` is discarded entirely. -/
def create_partial_file (_old : Nat → Nat) : Nat → Nat := fun _ => 0

/-- Byte-level effect of one chunk fetch task (lines 477-523): the range
request for `bytes=start-end` streams the source bytes of that inclusive
range into the file at their absolute offsets. -/
def fetch_chunk_write (src : Nat → Nat) (c : ChunkStatus) (f : Nat → Nat) : Nat → Nat :=
  fun j => if c.start ≤ j ∧ j ≤ c.stop then src j else f j

/-- Chunk selection in `download_file` (lines 430-440): only chunks not yet
marked `complete` are spawned. -/
def chunks_to_download (chunks : List ChunkStatus) : List ChunkStatus :=
  chunks.filter (fun c => !c.complete)

/-- Partial-file content after `download_file`'s chunk phase: the file is
first created (truncating any existing bytes, lines 420-427), then every
not-yet-complete chunk is fetched from the source. -/
def download_file_chunk_phase (chunks : List ChunkStatus) (src : Nat → Nat)
    (old : Nat → Nat) : Nat → Nat :=
  (chunks_to_download chunks).foldl (fun f c => fetch_chunk_write src c f)
    (create_partial_file old)

/-- Resume record for C1: a 4-byte download in two 2-byte chunks whose first
chunk is already complete, its bytes (source value 1 everywhere) already
written in the partial file. -/
def c1_chunks_resumed : List ChunkStatus :=
  [{ index := 0, start := 0, stop := 1, downloaded := 2, complete := true, sha256 := none },
   { index := 1, start := 2, stop := 3, downloaded := 0, complete := false, sha256 := none }]

/-- The same plan with no chunk complete, as an uninterrupted download runs it. -/
def c1_chunks_fresh : List ChunkStatus :=
  [{ index := 0, start := 0, stop := 1, downloaded := 0, complete := false, sha256 := none },
   { index := 1, start := 2, stop := 3, downloaded := 0, complete := false, sha256 := none }]

/-- C1: evaluation at the failing input.  `resume_download` does re-spawn
fetch tasks only for the one incomplete chunk (first conjunct), but because
`download_file` re-runs `File::create` on the `.partial` path, the byte at
offset 0 — written by the already-complete chunk, source value 1, and present
in the pre-resume partial file — is zeroed and never re-fetched (second
conjunct), while an uninterrupted download of the same source leaves 1 there
(third conjunct): the finished file is not byte-identical. -/
theorem resume_zeroes_completed_chunk_bytes :
    (chunks_to_download c1_chunks_resumed).map ChunkStatus.index = [1] ∧
    download_file_chunk_phase c1_chunks_resumed (fun _ => 1) (fun _ => 1) 0 = 0 ∧
    download_file_chunk_phase c1_chunks_fresh (fun _ => 1) (fun _ => 0) 0 = 1 := by
  refine ⟨by decide, by decide, by decide⟩

/-- Rust `str::to_lowercase`, modelled per character.  The compared values are
SHA-256 hex digests (ASCII), where per-character lowercasing coincides with
Unicode lowercasing. -/
def to_lowercase (s : String) : String := String.mk (s.data.map Char.toLower)

/-- The registry/disk state of one download as far as `download_file`'s
verification and finalization phase observes or mutates it. -/
structure DmState where
  status : DownloadState
  error : Option String
  session_present : Bool
  stored_output_path : String
  partial_on_disk : Bool
  final_on_disk : Bool
  progress_on_disk : Bool
  deriving DecidableEq, Repr

/-- Outcome of `download_file`'s finalization phase: resulting state, the
`Result` value `download_file` returns, and the destination of the
`fs::rename`, if one was executed. -/
structure FinalizeResult where
  state : DmState
  result : Except String Unit
  renamed_to : Option String
  deriving DecidableEq, Repr

/-- Lines 576-609 of `download_file`: choose the final path (falling back to
the session's stored `output_path` when the argument is empty, and to the
partial path itself when the session is gone from the map), rename unless the
chosen path is empty, mark the session Complete, best-effort delete the
progress file, and emit `download-complete` — whose failure is propagated
with `?`.  A rename whose destination equals the partial path leaves the file
where it is. -/
def finalize_move (output_path partial_path_str : String) (emit_ok : String → Bool)
    (s : DmState) : FinalizeResult :=
  let final_path := if output_path.isEmpty then
      (if s.session_present then s.stored_output_path else partial_path_str)
    else output_path
  let s1 := if final_path.isEmpty then s
    else if final_path = partial_path_str then s
    else { s with partial_on_disk := false, final_on_disk := true }
  let s2 := if s1.session_present then { s1 with status := DownloadState.Complete } else s1
  let s3 := { s2 with progress_on_disk := false }
  let renamed := if final_path.isEmpty then none else some final_path
  if emit_ok "download-complete" then
    { state := s3, result := Except.ok (), renamed_to := renamed }
  else
    { state := s3, result := Except.error "Emit error", renamed_to := renamed }

/-- Lines 556-609 of `download_file`, entered after every spawned chunk task
joined successfully: if an expected hash was supplied, mark the session
Verifying, emit `download-verifying` (failure propagated with `?`), compare
the digest of the partial file case-insensitively, and return the mismatch
error without touching the partial file; otherwise finalize.  `actual` is
the SHA-256 digest `compute_sha256` returns for the partial file. -/
def verify_and_finalize (expected_sha256 : Option String) (actual : String)
    (output_path partial_path_str : String) (emit_ok : String → Bool)
    (s : DmState) : FinalizeResult :=
  match expected_sha256 with
  | some expected =>
      let s1 := if s.session_present then { s with status := DownloadState.Verifying } else s
      if emit_ok "download-verifying" then
        if to_lowercase actual = to_lowercase expected then
          finalize_move output_path partial_path_str emit_ok s1
        else
          { state := s1, result := Except.error "SHA256 mismatch", renamed_to := none }
      else
        { state := s1, result := Except.error "Emit error", renamed_to := none }
  | none => finalize_move output_path partial_path_str emit_ok s

/-- The wrapper around `download_file` in both `start_chunked_download`
(lines 262-269) and `resume_download` (lines 349-356): an `Err` result marks
the session Failed with that error (if the session is still registered) and
emits `download-error` with `let _ =` (best-effort, no propagation). -/
def on_download_result (r : FinalizeResult) : FinalizeResult :=
  match r.result with
  | Except.error e =>
      if r.state.session_present then
        { r with state := { r.state with status := DownloadState.Failed, error := some e } }
      else r
  | Except.ok _ => r

/-- C3: whenever an expected hash is supplied, the emission of
`download-verifying` succeeds, and the digest of the completed partial file
differs case-insensitively from the expectation, `download_file` returns the
mismatch error, the wrapper marks the session Failed with that error, the
`.partial` file stays on disk, no rename is performed, and the destination
file is never created. -/
theorem hash_mismatch_fails_without_finalizing
    (expected actual output_path partial_path_str : String)
    (emit_ok : String → Bool) (s : DmState)
    (hmm : to_lowercase actual ≠ to_lowercase expected)
    (hemit : emit_ok "download-verifying" = true)
    (hs : s.session_present = true)
    (hp : s.partial_on_disk = true) (hf : s.final_on_disk = false) :
    (verify_and_finalize (some expected) actual output_path partial_path_str emit_ok s).result
      = Except.error "SHA256 mismatch" ∧
    (on_download_result
        (verify_and_finalize (some expected) actual output_path partial_path_str emit_ok s)).state.status
      = DownloadState.Failed ∧
    (on_download_result
        (verify_and_finalize (some expected) actual output_path partial_path_str emit_ok s)).state.error
      = some "SHA256 mismatch" ∧
    (on_download_result
        (verify_and_finalize (some expected) actual output_path partial_path_str emit_ok s)).state.partial_on_disk
      = true ∧
    (on_download_result
        (verify_and_finalize (some expected) actual output_path partial_path_str emit_ok s)).state.final_on_disk
      = false ∧
    (on_download_result
        (verify_and_finalize (some expected) actual output_path partial_path_str emit_ok s)).renamed_to
      = none := by
  simp only [verify_and_finalize, on_download_result, hemit, hmm, hs, if_true, if_false,
    ite_true, ite_false, if_neg hmm]
  simp [hp, hf, hs]

/-- C3, witness: a wrong expected hash at a concrete state. -/
theorem hash_mismatch_fails_without_finalizing_witness :
    to_lowercase "aa" ≠ to_lowercase "BB" ∧
    (verify_and_finalize (some "BB") "aa" "out.bin" "d.partial" (fun _ => true)
      { status := DownloadState.Downloading, error := none, session_present := true,
        stored_output_path := "out.bin", partial_on_disk := true, final_on_disk := false,
        progress_on_disk := true }).result = Except.error "SHA256 mismatch" :=
  ⟨by decide,
    (hash_mismatch_fails_without_finalizing "BB" "aa" "out.bin" "d.partial" (fun _ => true)
      { status := DownloadState.Downloading, error := none, session_present := true,
        stored_output_path := "out.bin", partial_on_disk := true, final_on_disk := false,
        progress_on_disk := true } (by decide) rfl rfl rfl rfl).1⟩

/-- The `DownloadStatus` that `resume_download` registers (lines 310-322):
the destination is not re-supplied, so `output_path` is set to the empty
string. -/
def resume_status (id : String) (progress : DownloadProgress) : DownloadStatus :=
  { id := id
    url := progress.url
    total_size := progress.total_size
    downloaded := (progress.chunks.map ChunkStatus.downloaded).sum
    progress := 0
    status := DownloadState.Downloading
    chunks_completed := (progress.chunks.filter (fun c => c.complete)).length
    chunks_total := progress.chunks.length
    error := none
    sha256 := progress.expected_sha256
    output_path := "" }

/-- Resume record for C6: a single-chunk download, fully re-downloadable,
with no expected hash. -/
def c6_progress : DownloadProgress :=
  { id := "d"
    url := "http://example/file"
    total_size := 4
    expected_sha256 := none
    chunks := [{ index := 0, start := 0, stop := 3, downloaded := 0,
                 complete := false, sha256 := none }]
    created_at := "0"
    updated_at := "0" }

/-- C6: evaluation at the failing input.  On resume the session's stored
`output_path` is the empty string (first conjunct) and `download_file`
receives `""` as its `output_path` argument (line 343), so at finalize time
the chosen final path is empty: the rename is silently skipped, yet the
session is marked Complete, the progress record is deleted, and
`download_file` returns Ok — the verified artifact is left at the `.partial`
path with nothing surfaced to the caller. -/
theorem resume_finalize_silently_drops_artifact :
    (resume_status "d" c6_progress).output_path = "" ∧
    (on_download_result (verify_and_finalize none "h" "" "d.partial" (fun _ => true)
        { status := DownloadState.Downloading, error := none, session_present := true,
          stored_output_path := (resume_status "d" c6_progress).output_path,
          partial_on_disk := true, final_on_disk := false, progress_on_disk := true }))
      = { state := { status := DownloadState.Complete, error := none, session_present := true,
                     stored_output_path := "", partial_on_disk := true, final_on_disk := false,
                     progress_on_disk := false },
          result := Except.ok (), renamed_to := none } := by
  refine ⟨by decide, by decide⟩

/-- Outcome of one spawned chunk task as `download_file`'s join loop sees it
(a `JoinHandle` carrying `Result<(), String>`). -/
inductive TaskOutcome
  | running
  | ok
  | err (msg : String)
  deriving DecidableEq, Repr

/-- The interleaving-relevant state of one session: its registry status and
error, the shared cancellation flag, and the outcome of one in-flight chunk
task. -/
structure SessionModel where
  status : DownloadState
  error : Option String
  cancel_flag : Bool
  task_result : TaskOutcome
  deriving DecidableEq, Repr

/-- `pause_download` (lines 276-290): sets the shared cancel flag and marks
the session Paused (persisting progress, not modelled here). -/
def pause_download (s : SessionModel) : SessionModel :=
  { s with cancel_flag := true, status := DownloadState.Paused }

/-- The cancellation checkpoint at the top of each chunk task (lines
466-474): a task that observes the flag exits early with `Err("Cancelled")`. -/
def task_cancel_checkpoint (s : SessionModel) : SessionModel :=
  if s.cancel_flag then { s with task_result := TaskOutcome.err "Cancelled" } else s

/-- `download_file`'s join loop (lines 549-554) propagates the first chunk
task error out of `download_file`, and the spawn wrapper (lines 262-269,
349-356) then marks the session Failed with that error. -/
def join_and_report (s : SessionModel) : SessionModel :=
  match s.task_result with
  | TaskOutcome.err e => { s with status := DownloadState.Failed, error := some e }
  | _ => s

/-- C4, counterexample to the claim as stated: the concrete schedule
"pause_download succeeds; an in-flight chunk task reaches its cancellation
checkpoint; download_file joins" starts from a Downloading session with one
running task, passes through Paused, and ends with the session overwritten
to Failed with error "Cancelled" — the Cancelled exit caused by an explicit
pause is reported as a session-level failure. -/
theorem pause_overwritten_by_failed_counterexample :
    (pause_download
      { status := DownloadState.Downloading, error := none, cancel_flag := false,
        task_result := TaskOutcome.running }).status = DownloadState.Paused ∧
    (join_and_report (task_cancel_checkpoint (pause_download
      { status := DownloadState.Downloading, error := none, cancel_flag := false,
        task_result := TaskOutcome.running }))).status = DownloadState.Failed ∧
    (join_and_report (task_cancel_checkpoint (pause_download
      { status := DownloadState.Downloading, error := none, cancel_flag := false,
        task_result := TaskOutcome.running }))).error = some "Cancelled" := by
  refine ⟨by decide, by decide, by decide⟩

/-- C4 (amended): `pause_download` does transition the session to Paused, but
the Paused state survives only until a chunk task observes the cancel flag:
for every session state, after pause any task reaching its cancellation
checkpoint exits with `Err("Cancelled")`, and the join loop plus spawn
wrapper then overwrite the session to Failed with error "Cancelled". -/
theorem pause_then_checkpoint_reports_failed (s : SessionModel) :
    (pause_download s).status = DownloadState.Paused ∧
    (join_and_report (task_cancel_checkpoint (pause_download s))).status
      = DownloadState.Failed ∧
    (join_and_report (task_cancel_checkpoint (pause_download s))).error
      = some "Cancelled" := by
  simp [pause_download, task_cancel_checkpoint, join_and_report]

/-- Observable outcome of `start_chunked_download`: the returned `Result`
(the new id on success), the chunk plan if one was computed, the initial
progress record if one was saved, and whether the session was registered and
the download task spawned. -/
structure StartOutcome where
  result : Except String String
  chunks_planned : Option (List ChunkStatus)
  progress_saved : Option DownloadProgress
  session_inserted : Bool
  task_spawned : Bool
  deriving DecidableEq, Repr

/-- `start_chunked_download` (lines 139-273), with the HTTP HEAD response
abstracted to its Content-Length and Accept-Ranges header values (`none` for
an absent header), the generated UUID and timestamp passed in, and event
delivery abstracted to `emit_started_ok`.  Mirrors the source order: resolve
Content-Length, test `Accept-Ranges == "bytes"` exactly, plan chunks, save
the initial progress record, register the session, emit `download-started`
(failure propagated with `?`, line 236-237), then spawn the download task
and return the id. -/
def start_chunked_download (url _output_path : String) (expected_sha256 : Option String)
    (content_length : Option Nat) (accept_ranges : Option String)
    (emit_started_ok : Bool) (id now : String) : StartOutcome :=
  match content_length with
  | none =>
      { result := Except.error "Server did not provide Content-Length"
        chunks_planned := none, progress_saved := none
        session_inserted := false, task_spawned := false }
  | some total_size =>
      let supports_range := (accept_ranges.map (fun v => v == "bytes")).getD false
      if supports_range then
        let chunks := plan_chunks total_size
        let progress : DownloadProgress :=
          { id := id, url := url, total_size := total_size
            expected_sha256 := expected_sha256, chunks := chunks
            created_at := now, updated_at := now }
        if emit_started_ok then
          { result := Except.ok id, chunks_planned := some chunks
            progress_saved := some progress
            session_inserted := true, task_spawned := true }
        else
          { result := Except.error "Emit error", chunks_planned := some chunks
            progress_saved := some progress
            session_inserted := true, task_spawned := false }
      else
        { result := Except.error "Server does not support range requests"
          chunks_planned := none, progress_saved := none
          session_inserted := false, task_spawned := false }

/-- C10: the server is treated as range-capable only when the Accept-Ranges
header is present with value exactly "bytes"; for every other value — absent
header, different casing, "none", a list — `start_chunked_download` fails
with the unsupported-server error before any chunk is planned, any record
saved, any session registered, or any fetch task spawned. -/
theorem range_support_requires_exact_bytes (url output_path : String)
    (expected_sha256 : Option String) (total_size : Nat) (accept_ranges : Option String)
    (emit_started_ok : Bool) (id now : String)
    (h : accept_ranges ≠ some "bytes") :
    (start_chunked_download url output_path expected_sha256 (some total_size) accept_ranges
        emit_started_ok id now).result = Except.error "Server does not support range requests" ∧
    (start_chunked_download url output_path expected_sha256 (some total_size) accept_ranges
        emit_started_ok id now).chunks_planned = none ∧
    (start_chunked_download url output_path expected_sha256 (some total_size) accept_ranges
        emit_started_ok id now).progress_saved = none ∧
    (start_chunked_download url output_path expected_sha256 (some total_size) accept_ranges
        emit_started_ok id now).session_inserted = false ∧
    (start_chunked_download url output_path expected_sha256 (some total_size) accept_ranges
        emit_started_ok id now).task_spawned = false := by
  have hsr : (accept_ranges.map (fun v => v == "bytes")).getD false = false := by
    cases accept_ranges with
    | none => rfl
    | some v =>
        have hv : v ≠ "bytes" := fun hv => h (by rw [hv])
        simp [hv]
  simp [start_chunked_download, hsr]

/-- C10, witness: the header value "Bytes" (wrong casing) is rejected. -/
theorem range_support_requires_exact_bytes_witness :
    some "Bytes" ≠ some "bytes" ∧
    (start_chunked_download "http://example/file" "out.bin" none (some 100) (some "Bytes")
        true "id0" "0").result = Except.error "Server does not support range requests" :=
  ⟨by decide,
    (range_support_requires_exact_bytes "http://example/file" "out.bin" none 100 (some "Bytes")
      true "id0" "0" (by decide)).1⟩

/-- C5, counterexample to the claim as stated: with a range-capable server
and a failure delivering `download-started`, `start_chunked_download` does
not return the new id — the emit failure is propagated with `?` (lines
236-237) and the call fails, with the download task never spawned. -/
theorem emit_failure_fails_start_counterexample :
    (start_chunked_download "http://example/file" "out.bin" none (some 100) (some "bytes")
        false "id0" "0").result = Except.error "Emit error" ∧
    (start_chunked_download "http://example/file" "out.bin" none (some 100) (some "bytes")
        false "id0" "0").result ≠ Except.ok "id0" ∧
    (start_chunked_download "http://example/file" "out.bin" none (some 100) (some "bytes")
        false "id0" "0").task_spawned = false := by
  refine ⟨by decide, by decide, by decide⟩

/-- C5 (amended): only `download-progress` and `download-error` are emitted
best-effort.  A failure delivering `download-started` makes
`start_chunked_download` return an error instead of the new id (while the
same call with delivery succeeding returns the id); a failure delivering
`download-verifying` or `download-complete` makes `download_file` return an
error, after which the wrapper marks the session Failed. -/
theorem emit_failures_fail_operations (url output_path : String)
    (expected_sha256 : Option String) (total_size : Nat) (id now : String)
    (digest : String) (s : DmState) (hs : s.session_present = true) :
    (start_chunked_download url output_path expected_sha256 (some total_size) (some "bytes")
        false id now).result = Except.error "Emit error" ∧
    (start_chunked_download url output_path expected_sha256 (some total_size) (some "bytes")
        true id now).result = Except.ok id ∧
    (verify_and_finalize (some digest) digest output_path "d.partial" (fun _ => false) s).result
      = Except.error "Emit error" ∧
    (on_download_result (verify_and_finalize (some digest) digest output_path "d.partial"
        (fun _ => false) s)).state.status = DownloadState.Failed ∧
    (finalize_move output_path "d.partial" (fun _ => false) s).result
      = Except.error "Emit error" := by
  refine ⟨by simp [start_chunked_download], by simp [start_chunked_download], ?_, ?_, ?_⟩
  · simp [verify_and_finalize]
  · simp [verify_and_finalize, on_download_result, hs]
  · simp [finalize_move]

/-- C5, witness for the amended statement: concrete inputs for the emit
failures. -/
theorem emit_failures_fail_operations_witness :
    (({ status := DownloadState.Downloading, error := none, session_present := true,
        stored_output_path := "out.bin", partial_on_disk := true, final_on_disk := false,
        progress_on_disk := true } : DmState)).session_present = true ∧
    (start_chunked_download "http://example/file" "out.bin" none (some 100) (some "bytes")
        true "id0" "0").result = Except.ok "id0" :=
  ⟨rfl,
    (emit_failures_fail_operations "http://example/file" "out.bin" none 100 "id0" "0" "aa"
      { status := DownloadState.Downloading, error := none, session_present := true,
        stored_output_path := "out.bin", partial_on_disk := true, final_on_disk := false,
        progress_on_disk := true } rfl).2.1⟩

/-- Phase of one spawned chunk task with respect to the process-wide
semaphore and the network: before `semaphore.acquire()` (line 464), holding
a permit but not yet connected, holding a permit with its range request's
connection open (lines 478-523), or finished (the `_permit` guard dropped at
task exit). -/
inductive TaskPhase
  | waiting
  | holding
  | connected
  | done
  deriving DecidableEq, Repr

/-- One spawned chunk task: the download it belongs to and its phase.  Tasks
of different downloads share the one semaphore cloned from
`DownloadManagerState` (lines 100, 242, 307). -/
structure ChunkTask where
  download_id : String
  phase : TaskPhase
  deriving DecidableEq, Repr

/-- A task holds a semaphore permit from acquisition until it finishes. -/
def holds_permit (t : ChunkTask) : Bool :=
  match t.phase with
  | TaskPhase.holding => true
  | TaskPhase.connected => true
  | _ => false

/-- A task has an active network connection only in its fetch section. -/
def connection_open (t : ChunkTask) : Bool :=
  match t.phase with
  | TaskPhase.connected => true
  | _ => false

/-- Number of semaphore permits currently held across all tasks. -/
def permits_held (ts : List ChunkTask) : Nat := ts.countP holds_permit

/-- Number of chunk fetches with an open network connection. -/
def open_connections (ts : List ChunkTask) : Nat := ts.countP connection_open

/-- Interleaving semantics of all chunk tasks (of however many concurrent
downloads) around the single semaphore of capacity `MAX_PARALLEL_DOWNLOADS`:
`acquire` succeeds only while fewer than `MAX_PARALLEL_DOWNLOADS` permits are
held; a task issues its range request only while holding a permit; the
permit is released when the task finishes, whether it fetched (`finish`) or
exited early at the cancellation checkpoint (`abort`, lines 466-474). -/
inductive SemStep : List ChunkTask → List ChunkTask → Prop
  | acquire (pre post : List ChunkTask) (d : String) :
      permits_held (pre ++ { download_id := d, phase := TaskPhase.waiting } :: post)
          < MAX_PARALLEL_DOWNLOADS →
      SemStep (pre ++ { download_id := d, phase := TaskPhase.waiting } :: post)
              (pre ++ { download_id := d, phase := TaskPhase.holding } :: post)
  | connect (pre post : List ChunkTask) (d : String) :
      SemStep (pre ++ { download_id := d, phase := TaskPhase.holding } :: post)
              (pre ++ { download_id := d, phase := TaskPhase.connected } :: post)
  | finish (pre post : List ChunkTask) (d : String) :
      SemStep (pre ++ { download_id := d, phase := TaskPhase.connected } :: post)
              (pre ++ { download_id := d, phase := TaskPhase.done } :: post)
  | abort (pre post : List ChunkTask) (d : String) :
      SemStep (pre ++ { download_id := d, phase := TaskPhase.holding } :: post)
              (pre ++ { download_id := d, phase := TaskPhase.done } :: post)

/-- Each step preserves the permit bound. -/
theorem permits_held_preserved {ts ts' : List ChunkTask} (hstep : SemStep ts ts')
    (hb : permits_held ts ≤ MAX_PARALLEL_DOWNLOADS) :
    permits_held ts' ≤ MAX_PARALLEL_DOWNLOADS := by
  cases hstep with
  | acquire pre post d hlt =>
      simp [permits_held, List.countP_append, List.countP_cons, holds_permit,
        MAX_PARALLEL_DOWNLOADS] at hlt ⊢
      omega
  | connect pre post d =>
      simp [permits_held, List.countP_append, List.countP_cons, holds_permit] at hb ⊢
      omega
  | finish pre post d =>
      simp [permits_held, List.countP_append, List.countP_cons, holds_permit] at hb ⊢
      omega
  | abort pre post d =>
      simp [permits_held, List.countP_append, List.countP_cons, holds_permit] at hb ⊢
      omega

/-- Open connections never exceed held permits: a connection is open only in
the `connected` phase, which holds a permit. -/
theorem open_connections_le_permits_held (ts : List ChunkTask) :
    open_connections ts ≤ permits_held ts := by
  apply List.countP_mono_left
  intro t _ hconn
  cases t with
  | mk d p => cases p <;> simp_all [connection_open, holds_permit]

/-- C7: along every interleaving that starts with all spawned chunk tasks
(of any number of concurrent downloads) waiting for the semaphore, at no
point do more than `MAX_PARALLEL_DOWNLOADS = 8` chunk fetch tasks have an
active network connection: every task acquires a permit before its range
request and holds it until it finishes, and the permit count is bounded by
the semaphore capacity. -/
theorem concurrency_cap (ts ts' : List ChunkTask)
    (hinit : ∀ t ∈ ts, t.phase = TaskPhase.waiting)
    (hreach : Relation.ReflTransGen SemStep ts ts') :
    open_connections ts' ≤ MAX_PARALLEL_DOWNLOADS ∧
    permits_held ts' ≤ MAX_PARALLEL_DOWNLOADS := by
  have hinv : permits_held ts' ≤ MAX_PARALLEL_DOWNLOADS := by
    induction hreach with
    | refl =>
        have hz : permits_held ts = 0 := by
          simp only [permits_held, List.countP_eq_zero]
          intro t ht
          have := hinit t ht
          cases t with
          | mk d p => simp_all [holds_permit]
        omega
    | tail hsteps hstep ih => exact permits_held_preserved hstep ih
  exact ⟨le_trans (open_connections_le_permits_held ts') hinv, hinv⟩

/-- C7, witness: a concrete two-download system taking one acquire step. -/
theorem concurrency_cap_witness :
    (∀ t ∈ [{ download_id := "a", phase := TaskPhase.waiting },
            { download_id := "b", phase := TaskPhase.waiting }],
      ChunkTask.phase t = TaskPhase.waiting) ∧
    open_connections [{ download_id := "a", phase := TaskPhase.holding },
                      { download_id := "b", phase := TaskPhase.waiting }]
      ≤ MAX_PARALLEL_DOWNLOADS :=
  ⟨by decide,
    (concurrency_cap
      [{ download_id := "a", phase := TaskPhase.waiting },
       { download_id := "b", phase := TaskPhase.waiting }]
      [{ download_id := "a", phase := TaskPhase.holding },
       { download_id := "b", phase := TaskPhase.waiting }]
      (by decide)
      (Relation.ReflTransGen.single
        (SemStep.acquire [] [{ download_id := "b", phase := TaskPhase.waiting }] "a"
          (by decide)))).1⟩

/-- JSON values, the codomain of serde_json serialization modelled at the
value-tree level (serde_json's string layer round-trips value trees for the
field types involved: strings, `u64`/`usize`, booleans, options, sequences). -/
inductive JVal
  | jnull
  | jbool (b : Bool)
  | jnum (n : Nat)
  | jstr (s : String)
  | jarr (elems : List JVal)
  | jobj (fields : List (String × JVal))

/-- Field access on a serialized object. -/
def jfield (fields : List (String × JVal)) (k : String) : Option JVal :=
  fields.lookup k

def asNum : JVal → Option Nat
  | JVal.jnum n => some n
  | _ => none

def asBool : JVal → Option Bool
  | JVal.jbool b => some b
  | _ => none

def asStr : JVal → Option String
  | JVal.jstr s => some s
  | _ => none

def asOptStr : JVal → Option (Option String)
  | JVal.jnull => some none
  | JVal.jstr s => some (some s)
  | _ => none

def asArr : JVal → Option (List JVal)
  | JVal.jarr elems => some elems
  | _ => none

/-- serde serialization of `ChunkStatus` (derive on lines 49-57; default
snake_case field names, `Option` as the value or null).  The Rust field `end`
keeps its serialized name. -/
def ChunkStatus.toJson (c : ChunkStatus) : JVal :=
  JVal.jobj [("index", JVal.jnum c.index), ("start", JVal.jnum c.start),
             ("end", JVal.jnum c.stop), ("downloaded", JVal.jnum c.downloaded),
             ("complete", JVal.jbool c.complete),
             ("sha256", match c.sha256 with
                        | some h => JVal.jstr h
                        | none => JVal.jnull)]

/-- serde deserialization of `ChunkStatus`. -/
def ChunkStatus.fromJson : JVal → Option ChunkStatus
  | JVal.jobj fields => do
      let index ← (jfield fields "index").bind asNum
      let start ← (jfield fields "start").bind asNum
      let stop ← (jfield fields "end").bind asNum
      let downloaded ← (jfield fields "downloaded").bind asNum
      let complete ← (jfield fields "complete").bind asBool
      let sha256 ← (jfield fields "sha256").bind asOptStr
      some { index := index, start := start, stop := stop,
             downloaded := downloaded, complete := complete, sha256 := sha256 }
  | _ => none

/-- serde serialization of `DownloadProgress` (derive on lines 60-69). -/
def DownloadProgress.toJson (p : DownloadProgress) : JVal :=
  JVal.jobj [("id", JVal.jstr p.id), ("url", JVal.jstr p.url),
             ("total_size", JVal.jnum p.total_size),
             ("expected_sha256", match p.expected_sha256 with
                                 | some h => JVal.jstr h
                                 | none => JVal.jnull),
             ("chunks", JVal.jarr (p.chunks.map ChunkStatus.toJson)),
             ("created_at", JVal.jstr p.created_at),
             ("updated_at", JVal.jstr p.updated_at)]

/-- serde deserialization of `DownloadProgress`. -/
def DownloadProgress.fromJson : JVal → Option DownloadProgress
  | JVal.jobj fields => do
      let id ← (jfield fields "id").bind asStr
      let url ← (jfield fields "url").bind asStr
      let total_size ← (jfield fields "total_size").bind asNum
      let expected_sha256 ← (jfield fields "expected_sha256").bind asOptStr
      let chunkVals ← (jfield fields "chunks").bind asArr
      let chunks ← chunkVals.mapM ChunkStatus.fromJson
      let created_at ← (jfield fields "created_at").bind asStr
      let updated_at ← (jfield fields "updated_at").bind asStr
      some { id := id, url := url, total_size := total_size,
             expected_sha256 := expected_sha256, chunks := chunks,
             created_at := created_at, updated_at := updated_at }
  | _ => none

/-- The progress-file path for an id (`progress_path`, lines 107-109). -/
def progress_path (download_dir id : String) : String :=
  download_dir ++ "/" ++ id ++ ".progress.json"

/-- `save_progress` (lines 126-134): serializes the record and overwrites the
file keyed by the record's own id.  The download directory is a map from path
to stored JSON document. -/
def save_progress (fsys : List (String × JVal)) (download_dir : String)
    (p : DownloadProgress) : List (String × JVal) :=
  (progress_path download_dir p.id, DownloadProgress.toJson p)
    :: fsys.filter (fun kv => kv.1 != progress_path download_dir p.id)

/-- `load_progress` (lines 116-124): reads the file keyed by `id` and parses
it, `none` on a missing or unparsable file. -/
def load_progress (fsys : List (String × JVal)) (download_dir id : String) :
    Option DownloadProgress :=
  (fsys.lookup (progress_path download_dir id)).bind DownloadProgress.fromJson

/-- `ChunkStatus` serialization round-trips. -/
theorem chunkStatus_fromJson_toJson (c : ChunkStatus) :
    ChunkStatus.fromJson (ChunkStatus.toJson c) = some c := by
  cases c with
  | mk index start stop downloaded complete sha256 => cases sha256 <;> rfl

/-- Serialized chunk lists deserialize to the original list, for any
accumulator of the underlying mapM loop. -/
theorem mapM_fromJson_loop (cs : List ChunkStatus) : ∀ acc : List ChunkStatus,
    List.mapM.loop ChunkStatus.fromJson (cs.map ChunkStatus.toJson) acc
      = some (acc.reverse ++ cs) := by
  induction cs with
  | nil =>
      intro acc
      simp [List.mapM.loop]
  | cons c cs ih =>
      intro acc
      simp [List.mapM.loop, chunkStatus_fromJson_toJson c, ih]

/-- Serialized chunk lists deserialize to the original list. -/
theorem mapM_fromJson_map_toJson (cs : List ChunkStatus) :
    (cs.map ChunkStatus.toJson).mapM ChunkStatus.fromJson = some cs := by
  simp [List.mapM, mapM_fromJson_loop]

/-- `DownloadProgress` serialization round-trips. -/
theorem downloadProgress_fromJson_toJson (p : DownloadProgress) :
    DownloadProgress.fromJson (DownloadProgress.toJson p) = some p := by
  cases p with
  | mk id url total_size expected_sha256 chunks created_at updated_at =>
      cases expected_sha256 <;>
        simp [DownloadProgress.toJson, DownloadProgress.fromJson, jfield,
          asNum, asStr, asOptStr, asArr, List.lookup, List.mapM, mapM_fromJson_loop]

/-- C8: for every `DownloadProgress` record and every prior state of the
download directory, `save_progress` followed by `load_progress` with the same
id returns `some` of a record structurally equal to the one saved, per-chunk
states included. -/
theorem save_load_round_trip (fsys : List (String × JVal)) (download_dir : String)
    (p : DownloadProgress) :
    load_progress (save_progress fsys download_dir p) download_dir p.id = some p := by
  simp [load_progress, save_progress, List.lookup, downloadProgress_fromJson_toJson]

/-- The in-memory downloads map, as the status API reads it. -/
def registry_lookup (r : List (String × DownloadStatus)) (id : String) :
    Option DownloadStatus :=
  r.lookup id

/-- End-of-success bookkeeping in `download_file` (lines 593-600): the
session's entry is updated to Complete at 100 percent.  No removal from the
map occurs on this path. -/
def complete_update (r : List (String × DownloadStatus)) (id : String) :
    List (String × DownloadStatus) :=
  r.map (fun kv => if kv.1 = id
    then (kv.1, { kv.2 with status := DownloadState.Complete, progress := 100 })
    else kv)

/-- `cancel_download` (lines 363-380): flags and marks the entry, best-effort
deletes the two files, then removes the entry from the map; the net registry
effect is removal of the id. -/
def cancel_download_registry (r : List (String × DownloadStatus)) (id : String) :
    List (String × DownloadStatus) :=
  r.filter (fun kv => kv.1 != id)

/-- `get_download_status` (lines 383-393). -/
def get_download_status (r : List (String × DownloadStatus)) (id : String) :
    Except String DownloadStatus :=
  match r.lookup id with
  | some d => Except.ok d
  | none => Except.error "Download not found"

/-- `list_downloads` (lines 396-402). -/
def list_downloads (r : List (String × DownloadStatus)) : List DownloadStatus :=
  r.map (fun kv => kv.2)

/-- A session registered by `start_chunked_download`, for the C9
counterexample. -/
def c9_status : DownloadStatus :=
  { id := "d"
    url := "http://example/file"
    total_size := 4
    downloaded := 4
    progress := 0
    status := DownloadState.Downloading
    chunks_completed := 1
    chunks_total := 1
    error := none
    sha256 := none
    output_path := "out.bin" }

/-- C9, counterexample to the claim as stated: after a download completes,
its session is still in the registry — `get_download_status` returns it
(now Complete) instead of the not-found error, and `list_downloads` still
lists it. -/
theorem completed_session_still_listed_counterexample :
    get_download_status (complete_update [("d", c9_status)] "d") "d"
      = Except.ok { c9_status with status := DownloadState.Complete, progress := 100 } ∧
    get_download_status (complete_update [("d", c9_status)] "d") "d"
      ≠ Except.error "Download not found" ∧
    list_downloads (complete_update [("d", c9_status)] "d")
      = [{ c9_status with status := DownloadState.Complete, progress := 100 }] := by
  refine ⟨by decide, by decide, by decide⟩

/-- Association-list lookup hits a matching head. -/
theorem lookup_cons_self {β : Type} (k : String) (v : β) (l : List (String × β)) :
    List.lookup k ((k, v) :: l) = some v := by
  simp [List.lookup]

/-- Association-list lookup skips a non-matching head. -/
theorem lookup_cons_ne {β : Type} (a k : String) (v : β) (l : List (String × β))
    (h : a ≠ k) : List.lookup a ((k, v) :: l) = List.lookup a l := by
  have hb : (a == k) = false := beq_eq_false_iff_ne.mpr h
  simp [List.lookup, hb]

/-- C9 (amended): a cancelled download's session is removed from the
registry, but a completed download's session is not: it remains in the map
with state Complete at 100 percent, and `get_download_status` and
`list_downloads` keep returning it. -/
theorem registry_after_complete_and_cancel (r : List (String × DownloadStatus))
    (id : String) :
    registry_lookup (complete_update r id) id
      = (registry_lookup r id).map
          (fun st => { st with status := DownloadState.Complete, progress := 100 }) ∧
    registry_lookup (cancel_download_registry r id) id = none := by
  constructor
  · induction r with
    | nil => rfl
    | cons kv r ih =>
        obtain ⟨k, v⟩ := kv
        simp only [registry_lookup, complete_update, List.map_cons] at ih ⊢
        by_cases hk : k = id
        · subst hk
          rw [if_pos rfl, lookup_cons_self, lookup_cons_self]
          rfl
        · rw [if_neg hk, lookup_cons_ne _ _ _ _ (fun h => hk h.symm),
            lookup_cons_ne _ _ _ _ (fun h => hk h.symm)]
          exact ih
  · induction r with
    | nil => rfl
    | cons kv r ih =>
        obtain ⟨k, v⟩ := kv
        simp only [registry_lookup, cancel_download_registry, List.filter] at ih ⊢
        by_cases hk : k = id
        · subst hk
          simp only [bne_self_eq_false]
          exact ih
        · have hkeep : (k != id) = true := bne_iff_ne.mpr hk
          simp only [hkeep]
          rw [lookup_cons_ne _ _ _ _ (fun h => hk h.symm)]
          exact ih
